import Mathlib

/-!
# alertmanager-exec-bridge: request-to-execution pipeline

A shallow embedding of the Go sources

* `internal/executor/template.go` (`RenderCommand`, `renderMaybeTemplate`, `containsTemplate`),
* `internal/executor/runner.go` (`Run`),
* `internal/server/alertmanager.go` (`Validate`, `PrimaryAlertName`),
* `internal/server/http.go` (`firstLine`, the `/alert` handler),
* `internal/config/config.go` (`Validate`) and `cmd/alert-exec/main.go` (flag overlay),

followed by the theorems about them.

Conventions.  Go strings are modelled by `String`; the only string operations the
sources use are comparison with `""`, equality, `strings.Index` / `strings.Contains`
with an ASCII needle and slicing up to the index found, which agree on bytes and on
characters.  Go `int` and `time.Duration` values are `Int` (the sources only compare
them).  A nil slice and an empty slice are both `[]`.  A nil `error` is `none`.
Standard-library code that is not part of the repository (`text/template`,
`encoding/json`, `time.ParseDuration`, `Duration.String`, the operating system's
process scheduling) is a parameter of the definitions that call it.
-/

namespace AlertExec

/-! ## Go string helpers -/

/-- Worker of `strings.Index`: scan `s` from offset `i` for the first suffix that
starts with `sub`; `-1` when there is none. -/
def indexAux (sub : List Char) : List Char → Nat → Int
  | [], i => if sub = [] then (i : Int) else -1
  | c :: cs, i => if sub.isPrefixOf (c :: cs) then (i : Int) else indexAux sub cs (i + 1)

/-- Go `strings.Index(s, substr)`: index of the first instance of `substr` in `s`,
or `-1` if `substr` is not present. -/
def stringsIndex (s substr : String) : Int :=
  indexAux substr.data s.data 0

/-- Go `strings.Contains(s, substr)`, which is `Index(s, substr) >= 0`. -/
def stringsContains (s substr : String) : Bool :=
  decide (stringsIndex s substr ≥ 0)

/-- Go slice expression `s[:idx]`. -/
def sliceTo (s : String) (idx : Int) : String :=
  ⟨s.data.take idx.toNat⟩

/-! ## internal/executor/template.go -/

/-- Error value produced by `text/template` (parse or execution error). -/
structure TemplateError where
  text : String
deriving DecidableEq, Repr

/-- The two entry points of `text/template` used by the renderer:
`template.New(name).Parse(raw)` and `tmpl.Execute(&buf, data)` (returning the
buffer's text). -/
structure TemplateLib (τ δ : Type) where
  parse : String → String → Except TemplateError τ
  execute : τ → δ → Except TemplateError String

/-- Errors returned by `RenderCommand`:
`fmt.Errorf("rendering command template: %w", err)` and
`fmt.Errorf("rendering arg template %q: %w", raw, err)`.  The constructor arguments
are exactly the operands of the two format strings. -/
inductive RenderError where
  | command (cause : TemplateError)
  | arg (raw : String) (cause : TemplateError)
deriving DecidableEq, Repr

/-- Source `containsTemplate`: `strings.Contains(s, "{{")`. -/
def containsTemplate (s : String) : Bool :=
  stringsContains s "\x7b\x7b"

/-- Source `renderMaybeTemplate`. -/
def renderMaybeTemplate {τ δ : Type} (lib : TemplateLib τ δ) (name raw : String) (data : δ) :
    Except TemplateError String :=
  if !containsTemplate raw then
    .ok raw
  else
    match lib.parse name raw with
    | .error err => .error err
    | .ok tmpl =>
      match lib.execute tmpl data with
      | .error err => .error err
      | .ok out => .ok out

/-- The `for _, raw := range argTemplates` loop of `RenderCommand`; `args` is the
slice built so far. -/
def renderArgs {τ δ : Type} (lib : TemplateLib τ δ) (data : δ) :
    List String → List String → Except RenderError (List String)
  | [], args => .ok args
  | raw :: rest, args =>
    match renderMaybeTemplate lib "arg" raw data with
    | .error err => .error (.arg raw err)
    | .ok arg => renderArgs lib data rest (args ++ [arg])

/-- Source `RenderCommand`; the Go triple `(string, []string, error)`. -/
def RenderCommand {τ δ : Type} (lib : TemplateLib τ δ) (commandTemplate : String)
    (argTemplates : List String) (data : δ) : String × List String × Option RenderError :=
  match renderMaybeTemplate lib "command" commandTemplate data with
  | .error err => ("", [], some (.command err))
  | .ok cmd =>
    match renderArgs lib data argTemplates [] with
    | .error err => ("", [], some err)
    | .ok args => (cmd, args, none)

/-! ## internal/executor/runner.go -/

/-- Error values that reach the classification at the end of `Run`: an
`*exec.ExitError` (with the value of its `ExitCode()` method) or any other error.
`text` is the value of `Error()`. -/
inductive ExecError where
  | exitError (code : Int) (text : String)
  | other (text : String)
deriving DecidableEq, Repr

/-- Method `Error()` of an error value. -/
def ExecError.Error : ExecError → String
  | .exitError _ text => text
  | .other text => text

/-- Source `Result`. -/
structure Result where
  Command : String
  Args : List String
  Stdout : String
  Stderr : String
  ExitCode : Int
  Duration : Int
  TimedOut : Bool
deriving DecidableEq, Repr

/-- An `*os.Process`; `killResult` is what `Kill()` returns on it. -/
structure Process where
  killResult : Option ExecError
deriving DecidableEq, Repr

/-- Which case of the `select` in `Run` fires.  `done err`: the goroutine delivered
the result `err` of `cmd.Run()` first.  `timeout process`: the timer fired first, and
`process` is the value of `cmd.Process` at that moment, `none` (nil) while the
goroutine has not yet started the process. -/
inductive RaceOutcome where
  | done (err : Option ExecError)
  | timeout (process : Option Process)
deriving DecidableEq, Repr

/-- Everything outside the program that one call of `Run` observes. -/
structure World where
  race : RaceOutcome
  stdout : String
  stderr : String
  elapsed : Int
deriving DecidableEq, Repr

/-- A Go run-time panic. -/
inductive Panic where
  | nilDereference
deriving DecidableEq, Repr

/-- Method call `cmd.Process.Kill()`: dereferences the receiver. -/
def processKill : Option Process → Except Panic (Option ExecError)
  | none => .error .nilDereference
  | some p => .ok p.killResult

/-- The exit-code classification at the end of `Run`. -/
def classifyExit : Option ExecError → Int
  | some (.exitError code _) => code
  | none => 0
  | some (.other _) => -1

/-- Source `Run`.  `fmtDuration` is `time.Duration.String` (verb `%s`). -/
def Run (fmtDuration : Int → String) (w : World) (cmdPath : String) (cmdArgs : List String)
    (timeout : Int) : Except Panic (Result × Option ExecError) :=
  let res : Result :=
    { Command := cmdPath, Args := [] ++ cmdArgs, Stdout := "", Stderr := "",
      ExitCode := 0, Duration := 0, TimedOut := false }
  let selected : Except Panic (Result × Option ExecError) :=
    match w.race with
    | .done err => .ok (res, err)
    | .timeout process =>
      match processKill process with
      | .error p => .error p
      | .ok _ =>
        .ok ({ res with TimedOut := true },
             some (.other ("command timed out after " ++ fmtDuration timeout)))
  match selected with
  | .error p => .error p
  | .ok (res, err) =>
    let res := { res with Duration := w.elapsed }
    let res := { res with Stdout := w.stdout }
    let res := { res with Stderr := w.stderr }
    let res := { res with ExitCode := classifyExit err }
    .ok (res, err)

/-! ## internal/server/alertmanager.go -/

/-- Source `Alert`. -/
structure Alert where
  Status : String
  Labels : List (String × String)
  Annotations : List (String × String)
  StartsAt : Int
  EndsAt : Int
  GeneratorURL : String
  Fingerprint : String
deriving DecidableEq, Repr

/-- Source `AlertmanagerPayload`. -/
structure AlertmanagerPayload where
  Version : String
  GroupKey : String
  TruncatedAlerts : Int
  Status : String
  Receiver : String
  GroupLabels : List (String × String)
  CommonLabels : List (String × String)
  CommonAnnotations : List (String × String)
  ExternalURL : String
  Alerts : List Alert
deriving DecidableEq, Repr

/-- Source `(*AlertmanagerPayload).Validate`; `none` is the nil error. -/
def AlertmanagerPayload.Validate (p : AlertmanagerPayload) : Option String :=
  if p.Status = "" then
    some "status is required"
  else if p.Alerts.length = 0 then
    some "at least one alert is required"
  else
    none

/-- Source `(*AlertmanagerPayload).PrimaryAlertName`. -/
def AlertmanagerPayload.PrimaryAlertName (p : AlertmanagerPayload) : String :=
  match p.Alerts with
  | [] => ""
  | a :: _ =>
    match a.Labels.lookup "alertname" with
    | some name => name
    | none => ""

/-! ## internal/config/config.go -/

/-- Source `Config`. -/
structure Config where
  Listen : String
  Token : String
  Command : String
  Args : List String
  Timeout : Int
  TimeoutRaw : String
  LogLevel : String
deriving DecidableEq, Repr

/-- Source `config.Validate`; `none` is the nil error. -/
def Validate (cfg : Config) : Option String :=
  if cfg.Listen = "" then
    some "listen address cannot be empty"
  else if cfg.Command = "" then
    some "command cannot be empty"
  else if cfg.Timeout ≤ 0 then
    some "timeout must be greater than zero"
  else
    none

/-- Source `config.Load`, from the point where viper has produced the struct
(`unmarshalled`, the result of defaults, file and environment): timeout parsing and
validation.  `parseDuration` is `time.ParseDuration`.  In the error text the verb `%q`
is rendered as the raw value between double quotes. -/
def Load (parseDuration : String → Except String Int) (unmarshalled : Except String Config) :
    Except String Config :=
  match unmarshalled with
  | .error e => .error ("failed to unmarshal config: " ++ e)
  | .ok cfg =>
    let cfg := if cfg.TimeoutRaw = "" then { cfg with TimeoutRaw := "5s" } else cfg
    match parseDuration cfg.TimeoutRaw with
    | .error e => .error ("invalid timeout value \"" ++ cfg.TimeoutRaw ++ "\": " ++ e)
    | .ok dur =>
      let cfg := { cfg with Timeout := dur }
      match Validate cfg with
      | some e => .error e
      | none => .ok cfg

/-! ## cmd/alert-exec/main.go -/

/-- The command-line flags of `main`; every flag defaults to `""`. -/
structure Flags where
  config : String
  listen : String
  command : String
  token : String
  timeout : String
  logLevel : String
deriving DecidableEq, Repr

/-- The flag overlay of `main` ("flags por encima de todo lo demás"): the
configuration handed to `server.Run`, or `.error` when `main` exits with status 1. -/
def overlay (parseDuration : String → Except String Int) (cfg : Config) (f : Flags) :
    Except String Config :=
  let cfg := if f.listen ≠ "" then { cfg with Listen := f.listen } else cfg
  let cfg := if f.command ≠ "" then { cfg with Command := f.command } else cfg
  let cfg := if f.token ≠ "" then { cfg with Token := f.token } else cfg
  let cfgT : Except String Config :=
    if f.timeout ≠ "" then
      match parseDuration f.timeout with
      | .error e => .error ("invalid timeout flag: " ++ e)
      | .ok dur => .ok { cfg with Timeout := dur, TimeoutRaw := f.timeout }
    else .ok cfg
  match cfgT with
  | .error e => .error e
  | .ok cfg =>
    let cfg := if f.logLevel ≠ "" then { cfg with LogLevel := f.logLevel } else cfg
    .ok cfg

/-- Source `main` up to the call `server.Run(cfg, logger)`: load, then overlay. -/
def mainConfig (parseDuration : String → Except String Int)
    (unmarshalled : Except String Config) (f : Flags) : Except String Config :=
  match Load parseDuration unmarshalled with
  | .error e => .error e
  | .ok cfg => overlay parseDuration cfg f

/-! ## internal/server/http.go -/

/-- Source constant `maxBodyBytes` (1 MiB). -/
def maxBodyBytes : Nat := 1 <<< 20

/-- Source `firstLine`. -/
def firstLine (stderr : String) (err : Option ExecError) : String :=
  if stderr ≠ "" then
    let idx := stringsIndex stderr "\n"
    if idx ≠ -1 then
      sliceTo stderr idx
    else
      stderr
  else
    match err with
    | some e => e.Error
    | none => "unknown error"

/-- An inbound request as the `/alert` handler reads it: `Method`, the value of
`r.Header.Get("X-Token")` (`""` when the header is absent), `RemoteAddr`, and the
body stream (`.error` when the transport fails while the body is read). -/
structure Request where
  Method : String
  XToken : String
  RemoteAddr : String
  Body : Except String String

/-- A JSON scalar of the response maps. -/
inductive JVal where
  | str (s : String)
  | int (i : Int)
  | bool (b : Bool)
deriving DecidableEq, Repr

/-- What the handler writes after the status line: nothing, the text given to
`http.Error`, or the `map[string]any` given to the JSON encoder. -/
inductive Body where
  | empty
  | text (msg : String)
  | json (fields : List (String × JVal))
deriving DecidableEq, Repr

/-- Status code and body written to the `http.ResponseWriter`. -/
structure Response where
  status : Nat
  body : Body
deriving DecidableEq, Repr

/-- Observable actions of the handler, in order: a log record (level, message), a
call of `executor.RenderCommand`, a call of `executor.Run`. -/
inductive Event where
  | log (level : String) (msg : String)
  | renderCommand (command : String) (args : List String)
  | run (cmdPath : String) (cmdArgs : List String) (timeout : Int)
deriving DecidableEq, Repr

/-- How a handler invocation ends: a response was written, or the goroutine panicked. -/
inductive Outcome where
  | responded (r : Response)
  | panicked (p : Panic)
deriving DecidableEq, Repr

/-- Result of one handler invocation. -/
structure Handled where
  events : List Event
  outcome : Outcome
deriving DecidableEq, Repr

/-- Collaborators of the handler that live outside the repository:
`text/template`, `json.Unmarshal` into an `AlertmanagerPayload`,
`time.Duration.String`, and what the operating system does with a started command. -/
structure Deps (τ : Type) where
  tmpl : TemplateLib τ AlertmanagerPayload
  unmarshal : String → Except String AlertmanagerPayload
  fmtDuration : Int → String
  spawn : String → List String → Int → World

/-- `io.ReadAll(http.MaxBytesReader(w, r.Body, maxBodyBytes))`. -/
def readBody (body : Except String String) : Except String String :=
  match body with
  | .error e => .error e
  | .ok b => if b.utf8ByteSize > maxBodyBytes then .error "http: request body too large" else .ok b

/-- The failure test of the handler: `err != nil || res.ExitCode != 0 || res.TimedOut`. -/
def isFailure (res : Result) (err : Option ExecError) : Bool :=
  err.isSome || res.ExitCode != 0 || res.TimedOut

/-- Handler, from the return of `executor.Run` to the end: the mapping of the executor
outcome `(res, err)` to log record and response. -/
def respond (res : Result) (err : Option ExecError) : Handled :=
  if isFailure res err then
    { events := [.log "error" "command execution failed"],
      outcome := .responded
        { status := 503,
          body := .json [("status", .str "error"), ("exit_code", .int res.ExitCode),
                         ("timed_out", .bool res.TimedOut),
                         ("message", .str (firstLine res.Stderr err))] } }
  else
    { events := [.log "info" "command execution succeeded"],
      outcome := .responded
        { status := 200,
          body := .json [("status", .str "ok"), ("exit_code", .int res.ExitCode),
                         ("timed_out", .bool res.TimedOut)] } }

/-- Handler, execution stage: the call `executor.Run(cmdPath, cmdArgs, cfg.Timeout)`
and what follows. -/
def executeStage {τ : Type} (cfg : Config) (deps : Deps τ) (cmdPath : String)
    (cmdArgs : List String) : Handled :=
  let call := Event.run cmdPath cmdArgs cfg.Timeout
  match Run deps.fmtDuration (deps.spawn cmdPath cmdArgs cfg.Timeout) cmdPath cmdArgs
      cfg.Timeout with
  | .error p => { events := [call], outcome := .panicked p }
  | .ok (res, err) =>
    let h := respond res err
    { h with events := call :: h.events }

/-- Handler, render stage: the call of `executor.RenderCommand` and what follows. -/
def renderStage {τ : Type} (cfg : Config) (deps : Deps τ) (payload : AlertmanagerPayload) :
    Handled :=
  let call := Event.renderCommand cfg.Command cfg.Args
  match RenderCommand deps.tmpl cfg.Command cfg.Args payload with
  | (_, _, some _) =>
    { events := [call, .log "error" "failed to render command from template"],
      outcome := .responded { status := 500, body := .text "template error" } }
  | (cmdPath, cmdArgs, none) =>
    let h := executeStage cfg deps cmdPath cmdArgs
    { h with events := call :: .log "info" "alert mapped to command" :: h.events }

/-- Handler, validation stage: `payload.Validate()` and what follows. -/
def validateStage {τ : Type} (cfg : Config) (deps : Deps τ) (payload : AlertmanagerPayload) :
    Handled :=
  match payload.Validate with
  | some _ =>
    { events := [.log "error" "invalid alertmanager payload"],
      outcome := .responded { status := 400, body := .text "invalid payload" } }
  | none => renderStage cfg deps payload

/-- Handler, parse stage: `json.Unmarshal(body, &payload)` and what follows. -/
def parseStage {τ : Type} (cfg : Config) (deps : Deps τ) (body : String) : Handled :=
  match deps.unmarshal body with
  | .error _ =>
    { events := [.log "error" "failed to parse alertmanager payload"],
      outcome := .responded { status := 400, body := .text "invalid JSON" } }
  | .ok payload => validateStage cfg deps payload

/-- Handler, body-read stage: the bounded read of the body and what follows. -/
def readStage {τ : Type} (cfg : Config) (deps : Deps τ) (r : Request) : Handled :=
  match readBody r.Body with
  | .error _ =>
    { events := [.log "error" "failed to read request body"],
      outcome := .responded { status := 400, body := .text "bad request" } }
  | .ok body => parseStage cfg deps body

/-- The `/alert` handler registered by `server.Run`: method check, token check, then
the body-read stage. -/
def handleAlert {τ : Type} (cfg : Config) (deps : Deps τ) (r : Request) : Handled :=
  if r.Method ≠ "POST" then
    { events := [], outcome := .responded { status := 405, body := .empty } }
  else if cfg.Token ≠ "" ∧ (r.XToken = "" ∨ r.XToken ≠ cfg.Token) then
    { events := [.log "warn" "unauthorized request: invalid or missing token"],
      outcome := .responded { status := 401, body := .text "unauthorized" } }
  else
    readStage cfg deps r

/-! ## Sample collaborators used to evaluate the definitions on concrete inputs -/

/-- A template library for concrete evaluation: parsing the text of an unterminated
action fails the way `text/template` reports it; any other text parses to itself and
executes to itself. -/
def sampleLib {δ : Type} : TemplateLib String δ where
  parse := fun name raw =>
    if raw = "\x7b\x7b" then .error ⟨"template: " ++ name ++ ":1: unclosed action"⟩ else .ok raw
  execute := fun tmpl _ => .ok tmpl

/-- A stand-in for `time.Duration.String` in concrete evaluations: the count of
nanoseconds followed by the unit. -/
def sampleFmtDuration (d : Int) : String :=
  toString d ++ "ns"

/-- The zero value of `AlertmanagerPayload`, as `json.Unmarshal` leaves it for the
body `{}`. -/
def zeroPayload : AlertmanagerPayload :=
  { Version := "", GroupKey := "", TruncatedAlerts := 0, Status := "", Receiver := "",
    GroupLabels := [], CommonLabels := [], CommonAnnotations := [], ExternalURL := "",
    Alerts := [] }

/-- The zero value of `Alert`. -/
def zeroAlert : Alert :=
  { Status := "", Labels := [], Annotations := [], StartsAt := 0, EndsAt := 0,
    GeneratorURL := "", Fingerprint := "" }

/-- A payload with status `firing` and one alert. -/
def firingPayload : AlertmanagerPayload :=
  { zeroPayload with Status := "firing", Alerts := [zeroAlert] }

/-- The values of `json.Unmarshal` at three bodies: the empty object, an object with a
status and one alert, and anything else taken as malformed. -/
def sampleUnmarshal (body : String) : Except String AlertmanagerPayload :=
  if body = "\x7b\x7d" then .ok zeroPayload
  else if body = "\x7b\"status\":\"firing\",\"alerts\":[\x7b\x7d]\x7d" then .ok firingPayload
  else .error "invalid character"

/-- Collaborators for concrete evaluations; every started command exits with
status 0 after one millisecond and prints nothing. -/
def sampleDeps : Deps String where
  tmpl := sampleLib
  unmarshal := sampleUnmarshal
  fmtDuration := sampleFmtDuration
  spawn := fun _ _ _ => { race := .done none, stdout := "", stderr := "", elapsed := 1000000 }

/-- The defaults of `config.Load`: listen `:9095`, no token, the default command, no
arguments, timeout `5s`, log level `info`. -/
def defaultConfig : Config :=
  { Listen := ":9095", Token := "", Command := "/usr/local/bin/send-evolution", Args := [],
    Timeout := 5000000000, TimeoutRaw := "5s", LogLevel := "info" }

/-- The values of `time.ParseDuration` at four texts; any other text is taken as
malformed. -/
def sampleParseDuration (s : String) : Except String Int :=
  if s = "5s" then .ok 5000000000
  else if s = "1ns" then .ok 1
  else if s = "0s" then .ok 0
  else if s = "-1s" then .ok (-1000000000)
  else .error "time: invalid duration"

/-- Flags as `flag.Parse` leaves them when none is given. -/
def noFlags : Flags :=
  { config := "", listen := "", command := "", token := "", timeout := "", logLevel := "" }

/-! ## Facts about the string helpers -/

theorem indexAux_nonneg_iff (sub : List Char) (l : List Char) (i : Nat) :
    0 ≤ indexAux sub l i ↔ sub <:+: l := by
  induction l generalizing i with
  | nil =>
    by_cases h : sub = []
    · simp [indexAux, h]
    · simp [indexAux, h]
  | cons c cs ih =>
    unfold indexAux
    by_cases h : sub.isPrefixOf (c :: cs) = true
    · rw [if_pos h]
      have hp : sub <+: c :: cs := List.isPrefixOf_iff_prefix.mp h
      simp [hp.isInfix]
    · rw [if_neg h, ih, List.infix_cons_iff]
      have hp : ¬ sub <+: c :: cs := fun hp => h (List.isPrefixOf_iff_prefix.mpr hp)
      simp [hp]

theorem containsTemplate_iff (s : String) :
    containsTemplate s = true ↔ "\x7b\x7b".data <:+: s.data := by
  simp [containsTemplate, stringsContains, stringsIndex, indexAux_nonneg_iff]

theorem renderMaybeTemplate_literal {τ δ : Type} (lib : TemplateLib τ δ) (name s : String)
    (data : δ) (h : ¬ "\x7b\x7b".data <:+: s.data) :
    renderMaybeTemplate lib name s data = .ok s := by
  have hc : containsTemplate s = false := by
    cases hb : containsTemplate s with
    | false => rfl
    | true => exact absurd ((containsTemplate_iff s).mp hb) h
  simp [renderMaybeTemplate, hc]

/-- The argument loop, when every remaining template renders: the outputs are appended
to the accumulator in order. -/
theorem renderArgs_ok {τ δ : Type} (lib : TemplateLib τ δ) (data : δ) :
    ∀ (ts outs acc : List String),
      List.Forall₂ (fun t o => renderMaybeTemplate lib "arg" t data = .ok o) ts outs →
      renderArgs lib data ts acc = .ok (acc ++ outs) := by
  intro ts
  induction ts with
  | nil =>
    intro outs acc h
    cases h
    simp [renderArgs]
  | cons t ts ih =>
    intro outs acc h
    cases h with
    | cons h1 h2 =>
      simp only [renderArgs, h1]
      rw [ih _ _ h2]
      simp

/-- The argument loop, when a template fails after a prefix that renders: the loop
stops with the error of that template, whatever follows it. -/
theorem renderArgs_fail {τ δ : Type} (lib : TemplateLib τ δ) (data : δ) :
    ∀ (pre outs acc : List String) (t : String) (suf : List String) (e : TemplateError),
      List.Forall₂ (fun t o => renderMaybeTemplate lib "arg" t data = .ok o) pre outs →
      renderMaybeTemplate lib "arg" t data = .error e →
      renderArgs lib data (pre ++ t :: suf) acc = .error (.arg t e) := by
  intro pre
  induction pre with
  | nil =>
    intro outs acc t suf e h ht
    simp [renderArgs, ht]
  | cons p pre ih =>
    intro outs acc t suf e h ht
    cases h with
    | cons h1 h2 =>
      simp only [List.cons_append, renderArgs, h1]
      exact ih _ _ t suf e h2 ht

/-- Every outcome of the argument loop is one of the two above. -/
theorem renderArgs_cases {τ δ : Type} (lib : TemplateLib τ δ) (data : δ) :
    ∀ (ts acc : List String),
      (∃ outs, List.Forall₂ (fun t o => renderMaybeTemplate lib "arg" t data = .ok o) ts outs ∧
        renderArgs lib data ts acc = .ok (acc ++ outs)) ∨
      (∃ pre outs t suf e, ts = pre ++ t :: suf ∧
        List.Forall₂ (fun t o => renderMaybeTemplate lib "arg" t data = .ok o) pre outs ∧
        renderMaybeTemplate lib "arg" t data = .error e ∧
        renderArgs lib data ts acc = .error (.arg t e)) := by
  intro ts
  induction ts with
  | nil =>
    intro acc
    exact Or.inl ⟨[], List.Forall₂.nil, by simp [renderArgs]⟩
  | cons t ts ih =>
    intro acc
    cases ht : renderMaybeTemplate lib "arg" t data with
    | error e =>
      exact Or.inr ⟨[], [], t, ts, e, rfl, List.Forall₂.nil, ht, by simp [renderArgs, ht]⟩
    | ok o =>
      rcases ih (acc ++ [o]) with ⟨outs, hf, hr⟩ | ⟨pre, outs, u, suf, e, hts, hf, hu, hr⟩
      · exact Or.inl ⟨o :: outs, List.Forall₂.cons ht hf, by simp [renderArgs, ht, hr]⟩
      · exact Or.inr ⟨t :: pre, o :: outs, u, suf, e, by simp [hts],
          List.Forall₂.cons ht hf, hu, by simp [renderArgs, ht, hr]⟩

/-! ## The template renderer -/

/-- C5 (pass-through law).  A template string that does not contain the delimiter
marker is rendered to itself, without error, under every template name and for every
data value; hence when neither the command template nor any argument template
contains the marker, `RenderCommand` returns the command and the argument list
unchanged together with a nil error, whatever the payload. -/
theorem passthrough_law {τ δ : Type} (lib : TemplateLib τ δ) (data : δ) :
    (∀ name s : String, ¬ "\x7b\x7b".data <:+: s.data →
      renderMaybeTemplate lib name s data = .ok s) ∧
    (∀ (cmd : String) (args : List String), ¬ "\x7b\x7b".data <:+: cmd.data →
      (∀ a ∈ args, ¬ "\x7b\x7b".data <:+: a.data) →
      RenderCommand lib cmd args data = (cmd, args, none)) := by
  refine ⟨fun name s h => renderMaybeTemplate_literal lib name s data h, ?_⟩
  intro cmd args hc ha
  have hf : List.Forall₂ (fun t o => renderMaybeTemplate lib "arg" t data = .ok o) args args := by
    clear hc
    induction args with
    | nil => exact List.Forall₂.nil
    | cons a as ih =>
      refine List.Forall₂.cons (renderMaybeTemplate_literal lib "arg" a data ?_) (ih ?_)
      · exact ha a (List.mem_cons_self a as)
      · intro b hb
        exact ha b (List.mem_cons_of_mem a hb)
  simp [RenderCommand, renderMaybeTemplate_literal lib "command" cmd data hc,
    renderArgs_ok lib data args args [] hf]

/-- Witness of C5: a literal command with literal arguments, one of which holds
single braces. -/
theorem passthrough_law_witness :
    renderMaybeTemplate sampleLib "command" "/usr/bin/notify" () = .ok "/usr/bin/notify" ∧
    RenderCommand sampleLib "/usr/bin/notify" ["--json", "\x7b\"a\": 1\x7d"] () =
      ("/usr/bin/notify", ["--json", "\x7b\"a\": 1\x7d"], none) :=
  ⟨(passthrough_law sampleLib ()).1 "command" "/usr/bin/notify" (by decide),
   (passthrough_law sampleLib ()).2 "/usr/bin/notify" ["--json", "\x7b\"a\": 1\x7d"]
     (by decide) (by decide)⟩

/-- C7.  `RenderCommand` renders the argument templates independently and in order.
When the command and every argument template render, the returned list has the length
of the template list and its i-th element is the rendering of the i-th template.  When
argument template `t` is the first whose rendering fails (the templates `pre` before it
all render), `RenderCommand` returns an error together with the empty command and no
argument list, and the result is the same whatever templates `suf` follow `t`. -/
theorem renderCommand_in_order {τ δ : Type} (lib : TemplateLib τ δ) (data : δ)
    (commandTemplate : String) :
    (∀ (cmd : String) (ts outs : List String),
      renderMaybeTemplate lib "command" commandTemplate data = .ok cmd →
      List.Forall₂ (fun t o => renderMaybeTemplate lib "arg" t data = .ok o) ts outs →
      RenderCommand lib commandTemplate ts data = (cmd, outs, none) ∧
      outs.length = ts.length ∧
      ∀ (i : Nat) (hi : i < ts.length) (ho : i < outs.length),
        renderMaybeTemplate lib "arg" (ts.get ⟨i, hi⟩) data = .ok (outs.get ⟨i, ho⟩)) ∧
    (∀ (pre outs : List String) (t : String) (e : TemplateError),
      List.Forall₂ (fun t o => renderMaybeTemplate lib "arg" t data = .ok o) pre outs →
      renderMaybeTemplate lib "arg" t data = .error e →
      (∃ err, ∀ suf : List String,
        RenderCommand lib commandTemplate (pre ++ t :: suf) data = ("", [], some err)) ∧
      (∀ suf₁ suf₂ : List String,
        RenderCommand lib commandTemplate (pre ++ t :: suf₁) data =
          RenderCommand lib commandTemplate (pre ++ t :: suf₂) data) ∧
      (∀ cmd : String, renderMaybeTemplate lib "command" commandTemplate data = .ok cmd →
        ∀ suf : List String,
          RenderCommand lib commandTemplate (pre ++ t :: suf) data =
            ("", [], some (.arg t e)))) := by
  constructor
  · intro cmd ts outs hc hf
    refine ⟨?_, hf.length_eq.symm, fun i hi ho => hf.get hi ho⟩
    simp [RenderCommand, hc, renderArgs_ok lib data ts outs [] hf]
  · intro pre outs t e hf ht
    have key : ∀ suf : List String,
        RenderCommand lib commandTemplate (pre ++ t :: suf) data =
          match renderMaybeTemplate lib "command" commandTemplate data with
          | .error c => ("", [], some (.command c))
          | .ok _ => ("", [], some (.arg t e)) := by
      intro suf
      unfold RenderCommand
      cases renderMaybeTemplate lib "command" commandTemplate data with
      | error c => rfl
      | ok cmd => simp [renderArgs_fail lib data pre outs [] t suf e hf ht]
    refine ⟨?_, ?_, ?_⟩
    · cases hc : renderMaybeTemplate lib "command" commandTemplate data with
      | error c => exact ⟨.command c, fun suf => by rw [key suf, hc]⟩
      | ok cmd => exact ⟨.arg t e, fun suf => by rw [key suf, hc]⟩
    · intro suf₁ suf₂
      rw [key suf₁, key suf₂]
    · intro cmd hc suf
      rw [key suf, hc]

/-- Witness of C7: two literal arguments render in order; an unterminated action in
second position stops the loop, whatever follows it. -/
theorem renderCommand_in_order_witness :
    RenderCommand sampleLib "send" ["-a", "-b"] () = ("send", ["-a", "-b"], none) ∧
    RenderCommand sampleLib "send" (["-a"] ++ "\x7b\x7b" :: ["-c", "-d"]) () =
      ("", [], some (.arg "\x7b\x7b" ⟨"template: arg:1: unclosed action"⟩)) :=
  ⟨((renderCommand_in_order sampleLib () "send").1 "send" ["-a", "-b"] ["-a", "-b"]
      rfl (.cons rfl (.cons rfl .nil))).1,
   ((renderCommand_in_order sampleLib () "send").2 ["-a"] ["-a"] "\x7b\x7b"
      ⟨"template: arg:1: unclosed action"⟩ (.cons rfl .nil) rfl).2.2 "send" rfl
      ["-c", "-d"]⟩

/-- C6, counterexample.  The list `["{{"]` fails at position 0 and the list
`["-a", "{{"]` fails at position 1 (its position 0 renders), with the same raw template
text; `RenderCommand` returns the same error value for both, so the error does not
identify the position. -/
theorem renderCommand_error_omits_position :
    renderMaybeTemplate sampleLib "arg" "-a" () = .ok "-a" ∧
    RenderCommand sampleLib "send" ["\x7b\x7b"] () =
      ("", [], some (.arg "\x7b\x7b" ⟨"template: arg:1: unclosed action"⟩)) ∧
    RenderCommand sampleLib "send" ["-a", "\x7b\x7b"] () =
      ("", [], some (.arg "\x7b\x7b" ⟨"template: arg:1: unclosed action"⟩)) ∧
    (RenderCommand sampleLib "send" ["\x7b\x7b"] ()).2.2 =
      (RenderCommand sampleLib "send" ["-a", "\x7b\x7b"] ()).2.2 :=
  ⟨rfl, rfl, rfl, rfl⟩

/-- C6, amended.  Whenever `RenderCommand` fails it returns the empty command and no
arguments, and the error names which template failed and wraps the underlying
template error: either the command template failed with `cause` and the error is
`command cause`, or the command rendered, the argument templates before `t` rendered,
`t` failed with `cause`, and the error is `arg t cause`, which carries the raw text of
`t` and not its position. -/
theorem renderCommand_error_names_template {τ δ : Type} (lib : TemplateLib τ δ) (data : δ)
    (commandTemplate : String) (argTemplates : List String) (cmd : String)
    (args : List String) (err : RenderError)
    (h : RenderCommand lib commandTemplate argTemplates data = (cmd, args, some err)) :
    cmd = "" ∧ args = [] ∧
    ((∃ cause, renderMaybeTemplate lib "command" commandTemplate data = .error cause ∧
        err = .command cause) ∨
     (∃ c pre outs t suf cause,
        renderMaybeTemplate lib "command" commandTemplate data = .ok c ∧
        argTemplates = pre ++ t :: suf ∧
        List.Forall₂ (fun t o => renderMaybeTemplate lib "arg" t data = .ok o) pre outs ∧
        renderMaybeTemplate lib "arg" t data = .error cause ∧
        err = .arg t cause)) := by
  unfold RenderCommand at h
  cases hc : renderMaybeTemplate lib "command" commandTemplate data with
  | error cause =>
    rw [hc] at h
    simp only [Prod.mk.injEq, Option.some.injEq] at h
    exact ⟨h.1.symm, h.2.1.symm, Or.inl ⟨cause, rfl, h.2.2.symm⟩⟩
  | ok c =>
    rw [hc] at h
    rcases renderArgs_cases lib data argTemplates [] with
      ⟨outs, _, hr⟩ | ⟨pre, outs, t, suf, cause, hts, hf, ht, hr⟩
    · rw [hr] at h
      simp at h
    · rw [hr] at h
      simp only [Prod.mk.injEq, Option.some.injEq] at h
      exact ⟨h.1.symm, h.2.1.symm, Or.inr ⟨c, pre, outs, t, suf, cause, rfl, hts, hf, ht,
        h.2.2.symm⟩⟩

/-- Witness of C6 (amended): the failing second argument is named by its raw text. -/
theorem renderCommand_error_names_template_witness :
    RenderCommand sampleLib "send" ["-a", "\x7b\x7b"] () =
      ("", [], some (.arg "\x7b\x7b" ⟨"template: arg:1: unclosed action"⟩)) ∧
    ("" = "" ∧ ([] : List String) = [] ∧
    ((∃ cause, renderMaybeTemplate sampleLib "command" "send" () = .error cause ∧
        RenderError.arg "\x7b\x7b" ⟨"template: arg:1: unclosed action"⟩ = .command cause) ∨
     (∃ c pre outs t suf cause,
        renderMaybeTemplate sampleLib "command" "send" () = .ok c ∧
        ["-a", "\x7b\x7b"] = pre ++ t :: suf ∧
        List.Forall₂ (fun t o => renderMaybeTemplate sampleLib "arg" t () = .ok o) pre outs ∧
        renderMaybeTemplate sampleLib "arg" t () = .error cause ∧
        RenderError.arg "\x7b\x7b" ⟨"template: arg:1: unclosed action"⟩ = .arg t cause))) :=
  ⟨rfl, renderCommand_error_names_template sampleLib () "send" ["-a", "\x7b\x7b"] "" []
    (.arg "\x7b\x7b" ⟨"template: arg:1: unclosed action"⟩) rfl⟩

/-! ## The bounded process executor -/

/-- What `Run` returns when the process finishes before the timer fires. -/
theorem Run_done (fmtDuration : Int → String) (w : World) (cmdPath : String)
    (cmdArgs : List String) (timeout : Int) (err : Option ExecError)
    (h : w.race = .done err) :
    Run fmtDuration w cmdPath cmdArgs timeout =
      .ok ({ Command := cmdPath, Args := cmdArgs, Stdout := w.stdout, Stderr := w.stderr,
             ExitCode := classifyExit err, Duration := w.elapsed, TimedOut := false }, err) := by
  simp [Run, h]

/-- What `Run` returns when the timer fires first and the process has been started:
the result of `Kill` is discarded. -/
theorem Run_timeout_started (fmtDuration : Int → String) (w : World) (cmdPath : String)
    (cmdArgs : List String) (timeout : Int) (p : Process)
    (h : w.race = .timeout (some p)) :
    Run fmtDuration w cmdPath cmdArgs timeout =
      .ok ({ Command := cmdPath, Args := cmdArgs, Stdout := w.stdout, Stderr := w.stderr,
             ExitCode := -1, Duration := w.elapsed, TimedOut := true },
           some (.other ("command timed out after " ++ fmtDuration timeout))) := by
  simp [Run, h, processKill, classifyExit]

/-- Outcome classification of `Run` on every path on which it returns: exit without
error, exit error with code `c`, any other error, and timeout with a started process;
on every returned result the timed-out flag implies a non-nil error. -/
theorem Run_classification (fmtDuration : Int → String) (w : World) (cmdPath : String)
    (cmdArgs : List String) (timeout : Int) :
    (w.race = .done none →
      ∃ res, Run fmtDuration w cmdPath cmdArgs timeout = .ok (res, none) ∧
        res.ExitCode = 0 ∧ res.TimedOut = false) ∧
    (∀ c text, w.race = .done (some (.exitError c text)) →
      ∃ res, Run fmtDuration w cmdPath cmdArgs timeout = .ok (res, some (.exitError c text)) ∧
        res.ExitCode = c ∧ res.TimedOut = false) ∧
    (∀ text, w.race = .done (some (.other text)) →
      ∃ res, Run fmtDuration w cmdPath cmdArgs timeout = .ok (res, some (.other text)) ∧
        res.ExitCode = -1 ∧ res.TimedOut = false) ∧
    (∀ p, w.race = .timeout (some p) →
      ∃ res, Run fmtDuration w cmdPath cmdArgs timeout =
          .ok (res, some (.other ("command timed out after " ++ fmtDuration timeout))) ∧
        res.ExitCode = -1 ∧ res.TimedOut = true) ∧
    (∀ res err, Run fmtDuration w cmdPath cmdArgs timeout = .ok (res, err) →
      res.TimedOut = true → err ≠ none) := by
  refine ⟨?_, ?_, ?_, ?_, ?_⟩
  · intro h
    exact ⟨_, Run_done fmtDuration w cmdPath cmdArgs timeout none h, rfl, rfl⟩
  · intro c text h
    exact ⟨_, Run_done fmtDuration w cmdPath cmdArgs timeout _ h, rfl, rfl⟩
  · intro text h
    exact ⟨_, Run_done fmtDuration w cmdPath cmdArgs timeout _ h, rfl, rfl⟩
  · intro p h
    exact ⟨_, Run_timeout_started fmtDuration w cmdPath cmdArgs timeout p h, rfl, rfl⟩
  · intro res err h ht
    cases hr : w.race with
    | done e =>
      rw [Run_done fmtDuration w cmdPath cmdArgs timeout e hr] at h
      simp only [Except.ok.injEq, Prod.mk.injEq] at h
      rw [← h.1] at ht
      simp at ht
    | timeout proc =>
      cases proc with
      | none => simp [Run, hr, processKill] at h
      | some p =>
        rw [Run_timeout_started fmtDuration w cmdPath cmdArgs timeout p hr] at h
        simp only [Except.ok.injEq, Prod.mk.injEq] at h
        rw [← h.2]
        simp

/-- `Run` returns a result and an error value, without panicking, on every path except
the timer firing before the process exists; a failing `Kill` does not abort it. -/
theorem Run_returns_unless_unstarted (fmtDuration : Int → String) (w : World)
    (cmdPath : String) (cmdArgs : List String) (timeout : Int)
    (h : w.race ≠ .timeout none) :
    ∃ res err, Run fmtDuration w cmdPath cmdArgs timeout = .ok (res, err) := by
  cases hr : w.race with
  | done e => exact ⟨_, _, Run_done fmtDuration w cmdPath cmdArgs timeout e hr⟩
  | timeout proc =>
    cases proc with
    | none => exact absurd hr h
    | some p => exact ⟨_, _, Run_timeout_started fmtDuration w cmdPath cmdArgs timeout p hr⟩

/-- C4, at the failing input: command `/bin/sleep 10` with a timeout of one nanosecond,
the timer firing before the goroutine has started the process (`cmd.Process` is nil).
`Run` returns no result at all there, so no result with the timed-out flag set, a
timeout error and exit code -1. -/
theorem Run_timeout_unstarted_no_result (fmtDuration : Int → String) :
    ¬ ∃ res err,
      Run fmtDuration { race := .timeout none, stdout := "", stderr := "", elapsed := 1 }
        "/bin/sleep" ["10"] 1 = .ok (res, err) ∧
      res.TimedOut = true ∧ res.ExitCode = -1 ∧
      err = some (.other ("command timed out after " ++ fmtDuration 1)) := by
  rintro ⟨res, err, h, _⟩
  simp [Run, processKill] at h

/-- C9, at the failing input: whenever the timer fires before the process has been
started, the call `cmd.Process.Kill()` dereferences nil and `Run` panics, for every
command, argument list, timeout and captured output; and the `/alert` handler that
called it ends without writing a response. -/
theorem Run_panics_on_timeout_before_start :
    (∀ (fmtDuration : Int → String) (stdout stderr : String) (elapsed : Int)
       (cmdPath : String) (cmdArgs : List String) (timeout : Int),
      Run fmtDuration { race := .timeout none, stdout := stdout, stderr := stderr,
                        elapsed := elapsed } cmdPath cmdArgs timeout =
        .error .nilDereference) ∧
    (executeStage { defaultConfig with Timeout := 1 }
        { sampleDeps with spawn := fun _ _ _ =>
            { race := .timeout none, stdout := "", stderr := "", elapsed := 1 } }
        "/bin/sleep" ["10"]).outcome = .panicked .nilDereference := by
  refine ⟨?_, rfl⟩
  intro fmtDuration stdout stderr elapsed cmdPath cmdArgs timeout
  simp [Run, processKill]

/-! ## The request handler -/

/-- The failure test as a proposition. -/
theorem isFailure_iff (res : Result) (err : Option ExecError) :
    isFailure res err = true ↔ (err ≠ none ∨ res.ExitCode ≠ 0 ∨ res.TimedOut = true) := by
  cases err <;> simp [isFailure]

/-- C1.  For every executor outcome `(res, err)` the handler takes the failure branch
(error-level log, status 503, body `status: "error"`, the exit code, the timed-out flag
and `firstLine(res.Stderr, err)` as message) if and only if `err` is non-nil or the exit
code is non-zero or the timed-out flag is set; in every other case it takes the success
branch (info-level log, status 200, body `status: "ok"`, exit code 0, timed-out flag
false).  The handler maps whatever `executor.Run` returns this way. -/
theorem respond_mapping (res : Result) (err : Option ExecError) :
    (respond res err =
        { events := [.log "error" "command execution failed"],
          outcome := .responded
            { status := 503,
              body := .json [("status", .str "error"), ("exit_code", .int res.ExitCode),
                             ("timed_out", .bool res.TimedOut),
                             ("message", .str (firstLine res.Stderr err))] } } ↔
      (err ≠ none ∨ res.ExitCode ≠ 0 ∨ res.TimedOut = true)) ∧
    (respond res err =
        { events := [.log "info" "command execution succeeded"],
          outcome := .responded
            { status := 200,
              body := .json [("status", .str "ok"), ("exit_code", .int 0),
                             ("timed_out", .bool false)] } } ↔
      ¬ (err ≠ none ∨ res.ExitCode ≠ 0 ∨ res.TimedOut = true)) ∧
    (∀ {τ : Type} (cfg : Config) (deps : Deps τ) (cmdPath : String) (cmdArgs : List String),
      Run deps.fmtDuration (deps.spawn cmdPath cmdArgs cfg.Timeout) cmdPath cmdArgs
          cfg.Timeout = .ok (res, err) →
      (executeStage cfg deps cmdPath cmdArgs).outcome = (respond res err).outcome) := by
  refine ⟨?_, ?_, ?_⟩
  · rw [← isFailure_iff]
    cases hf : isFailure res err <;> simp [respond, hf]
  · rw [← isFailure_iff]
    cases hf : isFailure res err
    · have h := (isFailure_iff res err).not.mp (by simp [hf])
      push_neg at h
      simp [respond, hf, h.2.1, h.2.2]
    · simp [respond, hf]
  · intro τ cfg deps cmdPath cmdArgs h
    simp [executeStage, h]

/-- Witness of C1: the handler's answer when the sample command exits with status 0. -/
theorem respond_mapping_witness :
    (executeStage defaultConfig sampleDeps "/bin/true" []).outcome =
      .responded { status := 200,
                   body := .json [("status", .str "ok"), ("exit_code", .int 0),
                                  ("timed_out", .bool false)] } :=
  ((respond_mapping
      { Command := "/bin/true", Args := [], Stdout := "", Stderr := "", ExitCode := 0,
        Duration := 1000000, TimedOut := false } none).2.2
    defaultConfig sampleDeps "/bin/true" [] rfl).trans rfl

/-- `Validate` as a proposition: it fails exactly on an empty status or an empty
alert list. -/
theorem payload_validate_iff (p : AlertmanagerPayload) :
    p.Validate ≠ none ↔ (p.Status = "" ∨ p.Alerts = []) := by
  unfold AlertmanagerPayload.Validate
  by_cases hs : p.Status = ""
  · simp [hs]
  · by_cases ha : p.Alerts = []
    · simp [hs, ha]
    · simp [hs, ha]

/-- The mapping of an executor outcome answers 200 or 503. -/
theorem respond_status (res : Result) (err : Option ExecError) :
    ∃ resp, (respond res err).outcome = .responded resp ∧
      (resp.status = 200 ∨ resp.status = 503) := by
  unfold respond
  cases isFailure res err
  · exact ⟨_, rfl, Or.inl rfl⟩
  · exact ⟨_, rfl, Or.inr rfl⟩

/-- From the body-read stage on, whenever the handler writes a response its status is
200, 400, 500 or 503. -/
theorem readStage_status {τ : Type} (cfg : Config) (deps : Deps τ) (r : Request)
    (resp : Response) (h : (readStage cfg deps r).outcome = .responded resp) :
    resp.status = 200 ∨ resp.status = 400 ∨ resp.status = 500 ∨ resp.status = 503 := by
  unfold readStage at h
  split at h
  · simp only [Outcome.responded.injEq] at h
    rw [← h]; simp
  · unfold parseStage at h
    split at h
    · simp only [Outcome.responded.injEq] at h
      rw [← h]; simp
    · unfold validateStage at h
      split at h
      · simp only [Outcome.responded.injEq] at h
        rw [← h]; simp
      · unfold renderStage at h
        split at h
        · simp only [Outcome.responded.injEq] at h
          rw [← h]; simp
        · unfold executeStage at h
          split at h
          · simp at h
          · rename_i res err _
            obtain ⟨resp', h1, h2⟩ := respond_status res err
            simp only at h
            rw [h1] at h
            simp only [Outcome.responded.injEq] at h
            rw [← h]
            rcases h2 with h2 | h2 <;> simp [h2]

/-- C2.  `Validate` returns an error if and only if the status is the empty string or
the alert list is empty; for every such payload the validation stage answers 400
`invalid payload`, and so does the whole `/alert` handler for every request that
reaches validation with that payload (method POST, token check passed, body read
within the bound, body parsed to the payload); the only action recorded is the error
log, so neither `executor.RenderCommand` nor `executor.Run` is invoked. -/
theorem invalid_payload_rejected (p : AlertmanagerPayload) :
    (p.Validate ≠ none ↔ (p.Status = "" ∨ p.Alerts = [])) ∧
    (∀ {τ : Type} (cfg : Config) (deps : Deps τ), (p.Status = "" ∨ p.Alerts = []) →
      validateStage cfg deps p =
        { events := [.log "error" "invalid alertmanager payload"],
          outcome := .responded { status := 400, body := .text "invalid payload" } }) ∧
    (∀ {τ : Type} (cfg : Config) (deps : Deps τ) (r : Request) (body : String),
      r.Method = "POST" → (cfg.Token = "" ∨ r.XToken = cfg.Token) →
      readBody r.Body = .ok body → deps.unmarshal body = .ok p →
      (p.Status = "" ∨ p.Alerts = []) →
      handleAlert cfg deps r =
        { events := [.log "error" "invalid alertmanager payload"],
          outcome := .responded { status := 400, body := .text "invalid payload" } } ∧
      ∀ e ∈ (handleAlert cfg deps r).events,
        (∀ c a, e ≠ .renderCommand c a) ∧ (∀ c a t, e ≠ .run c a t)) := by
  have hv : ∀ {τ : Type} (cfg : Config) (deps : Deps τ), (p.Status = "" ∨ p.Alerts = []) →
      validateStage cfg deps p =
        { events := [.log "error" "invalid alertmanager payload"],
          outcome := .responded { status := 400, body := .text "invalid payload" } } := by
    intro τ cfg deps hp
    have hne := (payload_validate_iff p).mpr hp
    unfold validateStage
    cases hval : p.Validate with
    | none => exact absurd hval hne
    | some e => rfl
  refine ⟨payload_validate_iff p, fun cfg deps hp => hv cfg deps hp, ?_⟩
  intro τ cfg deps r body hm ht hb hu hp
  have hh : handleAlert cfg deps r =
      { events := [.log "error" "invalid alertmanager payload"],
        outcome := .responded { status := 400, body := .text "invalid payload" } } := by
    have htok : ¬ (cfg.Token ≠ "" ∧ (r.XToken = "" ∨ r.XToken ≠ cfg.Token)) := by
      rintro ⟨h1, h2⟩
      rcases ht with ht | ht
      · exact h1 ht
      · rcases h2 with h2 | h2
        · exact h1 (ht ▸ h2)
        · exact h2 ht
    unfold handleAlert
    rw [if_neg (by simp [hm]), if_neg htok]
    simp only [readStage, hb, parseStage, hu]
    exact hv cfg deps hp
  refine ⟨hh, ?_⟩
  intro e he
  rw [hh] at he
  simp only [List.mem_singleton] at he
  subst he
  exact ⟨fun c a => by simp, fun c a t => by simp⟩

/-- Witness of C2: a POST of the empty JSON object, with no token configured. -/
theorem invalid_payload_rejected_witness :
    handleAlert defaultConfig sampleDeps
        { Method := "POST", XToken := "", RemoteAddr := "10.0.0.1:40000",
          Body := .ok "\x7b\x7d" } =
      { events := [.log "error" "invalid alertmanager payload"],
        outcome := .responded { status := 400, body := .text "invalid payload" } } :=
  ((invalid_payload_rejected zeroPayload).2.2 defaultConfig sampleDeps
    { Method := "POST", XToken := "", RemoteAddr := "10.0.0.1:40000", Body := .ok "\x7b\x7d" }
    "\x7b\x7d" rfl (Or.inl rfl) rfl rfl (Or.inl rfl)).1

/-- C3, counterexample.  With token `s3cret` configured, a GET request without the
header is answered 405, not 401; and a GET request whose header equals the token is
answered 405 as well, without reaching the body-read stage. -/
theorem token_check_after_method_check :
    handleAlert { defaultConfig with Token := "s3cret" } sampleDeps
        { Method := "GET", XToken := "", RemoteAddr := "10.0.0.1:40000", Body := .ok "" } =
      { events := [], outcome := .responded { status := 405, body := .empty } } ∧
    handleAlert { defaultConfig with Token := "s3cret" } sampleDeps
        { Method := "GET", XToken := "s3cret", RemoteAddr := "10.0.0.1:40000",
          Body := .ok "" } =
      { events := [], outcome := .responded { status := 405, body := .empty } } ∧
    handleAlert { defaultConfig with Token := "s3cret" } sampleDeps
        { Method := "GET", XToken := "s3cret", RemoteAddr := "10.0.0.1:40000",
          Body := .ok "" } ≠
      readStage { defaultConfig with Token := "s3cret" } sampleDeps
        { Method := "GET", XToken := "s3cret", RemoteAddr := "10.0.0.1:40000",
          Body := .ok "" } := by
  refine ⟨rfl, rfl, ?_⟩
  decide

/-- C3, amended.  Every request to `/alert` whose method is not POST is answered 405
with an empty body, before the token is looked at and whatever the configuration.  For
every configured token `T` other than the empty string and every POST request: if the
`X-Token` header is absent or differs from `T` the handler logs a warning and answers
401 `unauthorized`; if the header equals `T` the handler continues with the body-read
stage and whatever it answers is not 401. -/
theorem token_gate {τ : Type} (cfg : Config) (deps : Deps τ) (r : Request) :
    (r.Method ≠ "POST" →
      handleAlert cfg deps r =
        { events := [], outcome := .responded { status := 405, body := .empty } }) ∧
    (cfg.Token ≠ "" → r.Method = "POST" →
      ((r.XToken = "" ∨ r.XToken ≠ cfg.Token) →
        handleAlert cfg deps r =
          { events := [.log "warn" "unauthorized request: invalid or missing token"],
            outcome := .responded { status := 401, body := .text "unauthorized" } }) ∧
      (r.XToken = cfg.Token →
        handleAlert cfg deps r = readStage cfg deps r ∧
        ∀ resp, (handleAlert cfg deps r).outcome = .responded resp → resp.status ≠ 401)) := by
  refine ⟨?_, ?_⟩
  · intro hm
    unfold handleAlert
    rw [if_pos hm]
  · intro hT hm
    constructor
    · intro h
      unfold handleAlert
      rw [if_neg (by simp [hm]), if_pos ⟨hT, h⟩]
    · intro h
      have hh : handleAlert cfg deps r = readStage cfg deps r := by
        unfold handleAlert
        rw [if_neg (by simp [hm]), if_neg]
        rintro ⟨_, h2 | h2⟩
        · exact hT (h ▸ h2)
        · exact h2 h
      refine ⟨hh, ?_⟩
      intro resp hr
      rw [hh] at hr
      rcases readStage_status cfg deps r resp hr with h1 | h1 | h1 | h1 <;> simp [h1]

/-- Witness of C3 (amended): with token `s3cret` configured, a DELETE carrying the
token is answered 405, a POST with a wrong token is answered 401, and a POST with the
configured token goes on to the body-read stage. -/
theorem token_gate_witness :
    handleAlert { defaultConfig with Token := "s3cret" } sampleDeps
        { Method := "DELETE", XToken := "s3cret", RemoteAddr := "10.0.0.1:40000",
          Body := .ok "\x7b\x7d" } =
      { events := [], outcome := .responded { status := 405, body := .empty } } ∧
    handleAlert { defaultConfig with Token := "s3cret" } sampleDeps
        { Method := "POST", XToken := "guess", RemoteAddr := "10.0.0.1:40000",
          Body := .ok "\x7b\x7d" } =
      { events := [.log "warn" "unauthorized request: invalid or missing token"],
        outcome := .responded { status := 401, body := .text "unauthorized" } } ∧
    handleAlert { defaultConfig with Token := "s3cret" } sampleDeps
        { Method := "POST", XToken := "s3cret", RemoteAddr := "10.0.0.1:40000",
          Body := .ok "\x7b\x7d" } =
      readStage { defaultConfig with Token := "s3cret" } sampleDeps
        { Method := "POST", XToken := "s3cret", RemoteAddr := "10.0.0.1:40000",
          Body := .ok "\x7b\x7d" } :=
  ⟨(token_gate { defaultConfig with Token := "s3cret" } sampleDeps
      { Method := "DELETE", XToken := "s3cret", RemoteAddr := "10.0.0.1:40000",
        Body := .ok "\x7b\x7d" }).1 (by decide),
   ((token_gate { defaultConfig with Token := "s3cret" } sampleDeps
      { Method := "POST", XToken := "guess", RemoteAddr := "10.0.0.1:40000",
        Body := .ok "\x7b\x7d" }).2 (by decide) rfl).1 (Or.inr (by decide)),
   (((token_gate { defaultConfig with Token := "s3cret" } sampleDeps
      { Method := "POST", XToken := "s3cret", RemoteAddr := "10.0.0.1:40000",
        Body := .ok "\x7b\x7d" }).2 (by decide) rfl).2 rfl).1⟩

/-- `strings.Index(s, "\n")` when `s` has no newline. -/
theorem indexAux_newline_absent (l : List Char) (i : Nat) (h : '\n' ∉ l) :
    indexAux ['\n'] l i = -1 := by
  induction l generalizing i with
  | nil => simp [indexAux]
  | cons c cs ih =>
    have hc : c ≠ '\n' := fun hc => h (by simp [hc])
    have hcs : '\n' ∉ cs := fun hm => h (List.mem_cons_of_mem c hm)
    unfold indexAux
    simp [List.isPrefixOf, hc.symm, ih _ hcs]

/-- `strings.Index(s, "\n")` when `s` is `a`, a newline, then `b`, with no newline
in `a`. -/
theorem indexAux_newline_first (a b : List Char) (i : Nat) (h : '\n' ∉ a) :
    indexAux ['\n'] (a ++ '\n' :: b) i = ((i + a.length : Nat) : Int) := by
  induction a generalizing i with
  | nil => simp [indexAux, List.isPrefixOf]
  | cons c cs ih =>
    have hc : c ≠ '\n' := fun hc => h (by simp [hc])
    have hcs : '\n' ∉ cs := fun hm => h (List.mem_cons_of_mem c hm)
    have hb : ('\n' == c) = false := by simp [hc.symm]
    simp only [List.cons_append]
    unfold indexAux
    simp only [List.isPrefixOf, hb, Bool.false_and, Bool.false_eq_true, if_false]
    rw [ih _ hcs]
    simp only [List.length_cons]
    congr 1
    omega

/-- On a non-empty stderr with no newline `firstLine` returns all of it. -/
theorem firstLine_no_newline (stderr : String) (err : Option ExecError)
    (hne : stderr ≠ "") (h : '\n' ∉ stderr.data) : firstLine stderr err = stderr := by
  have hi : stringsIndex stderr "\n" = -1 := indexAux_newline_absent stderr.data 0 h
  simp [firstLine, hne, hi]

/-- On a stderr that is `a`, a newline, then `b`, with no newline in `a`, `firstLine`
returns `a`. -/
theorem firstLine_before_newline (stderr : String) (err : Option ExecError)
    (a b : List Char) (hd : stderr.data = a ++ '\n' :: b) (h : '\n' ∉ a) :
    firstLine stderr err = ⟨a⟩ := by
  have hne : stderr ≠ "" := by
    intro he
    rw [he] at hd
    simp at hd
  have hi : stringsIndex stderr "\n" = ((0 + a.length : Nat) : Int) := by
    unfold stringsIndex
    rw [hd]
    exact indexAux_newline_first a b 0 h
  have hn : stringsIndex stderr "\n" ≠ -1 := by
    rw [hi]
    omega
  simp only [firstLine, hne, ne_eq, not_false_eq_true, if_true, hn]
  simp [sliceTo, hi, hd]

/-- C8, counterexample.  With a non-nil error, a stderr that begins with a newline
gives the empty message (no fallback to the error's text), and so does an empty stderr
with an error whose text is empty; and with an empty stderr the message is the error's
text even when that text spans two lines. -/
theorem firstLine_empty_despite_error :
    firstLine "\nboom" (some (.exitError 1 "exit status 1")) = "" ∧
    firstLine "" (some (.other "")) = "" ∧
    firstLine "" (some (.other "fork/exec /opt/a\nb: no such file or directory")) =
      "fork/exec /opt/a\nb: no such file or directory" := by
  refine ⟨?_, ?_, ?_⟩ <;> decide

/-- C8, amended.  When stderr is non-empty the message is the text before its first
newline, or all of stderr when it has no newline, and it contains no newline; when
stderr is empty the message is the error's own text if the error is non-nil and
`unknown error` otherwise.  The message is non-empty whenever stderr is non-empty and
does not begin with a newline, and whenever stderr is empty and the error is nil or
has a non-empty text. -/
theorem firstLine_spec (stderr : String) (err : Option ExecError) :
    (∀ a b : List Char, stderr.data = a ++ '\n' :: b → '\n' ∉ a →
      firstLine stderr err = ⟨a⟩) ∧
    (stderr ≠ "" → '\n' ∉ stderr.data → firstLine stderr err = stderr) ∧
    (stderr ≠ "" → '\n' ∉ (firstLine stderr err).data) ∧
    (∀ e, stderr = "" → err = some e → firstLine stderr err = e.Error) ∧
    (stderr = "" → err = none → firstLine stderr err = "unknown error") ∧
    (stderr ≠ "" → stderr.data.head? ≠ some '\n' → firstLine stderr err ≠ "") ∧
    (stderr = "" → (∀ e, err = some e → e.Error ≠ "") → firstLine stderr err ≠ "") := by
  have split : '\n' ∉ stderr.data ∨
      ∃ a b : List Char, stderr.data = a ++ '\n' :: b ∧ '\n' ∉ a := by
    by_cases hm : '\n' ∈ stderr.data
    · exact Or.inr (List.eq_append_cons_of_mem hm)
    · exact Or.inl hm
  refine ⟨?_, ?_, ?_, ?_, ?_, ?_, ?_⟩
  · intro a b hd ha
    exact firstLine_before_newline stderr err a b hd ha
  · intro hne h
    exact firstLine_no_newline stderr err hne h
  · intro hne
    rcases split with h | ⟨a, b, hd, ha⟩
    · rw [firstLine_no_newline stderr err hne h]
      exact h
    · rw [firstLine_before_newline stderr err a b hd ha]
      exact ha
  · intro e hs he
    simp [firstLine, hs, he]
  · intro hs he
    simp [firstLine, hs, he]
  · intro hne hh
    rcases split with h | ⟨a, b, hd, ha⟩
    · rw [firstLine_no_newline stderr err hne h]
      exact hne
    · rw [firstLine_before_newline stderr err a b hd ha]
      intro hem
      have ha' : a = [] := by
        have := congrArg String.data hem
        simpa using this
      rw [ha'] at hd
      rw [hd] at hh
      simp at hh
  · intro hs he
    cases err with
    | none => simp [firstLine, hs]
    | some e =>
      simp only [firstLine, hs, ne_eq, not_true_eq_false, if_false]
      exact he e rfl

/-- Witness of C8 (amended): the first of two stderr lines is the message. -/
theorem firstLine_spec_witness :
    firstLine "boom: disk full\nusage: send [-a]" (some (.exitError 2 "exit status 2")) =
      "boom: disk full" :=
  (firstLine_spec "boom: disk full\nusage: send [-a]" (some (.exitError 2 "exit status 2"))).1
    "boom: disk full".data "usage: send [-a]".data (by decide) (by decide)

/-! ## Configuration: load and flag overlay -/

/-- Every configuration returned by `Load` satisfies `Validate`. -/
theorem Load_valid (parseDuration : String → Except String Int)
    (unmarshalled : Except String Config) (cfg : Config)
    (h : Load parseDuration unmarshalled = .ok cfg) : Validate cfg = none := by
  unfold Load at h
  cases unmarshalled with
  | error e => simp at h
  | ok c =>
    simp only at h
    generalize (if c.TimeoutRaw = "" then { c with TimeoutRaw := "5s" } else c) = c1 at h
    cases hp : parseDuration c1.TimeoutRaw with
    | error e => simp [hp] at h
    | ok dur =>
      simp only [hp] at h
      cases hv : Validate { c1 with Timeout := dur } with
      | some e => simp [hv] at h
      | none =>
        simp only [hv, Except.ok.injEq] at h
        rw [← h]
        exact hv

/-- The overlay keeps a valid configuration valid when the timeout flag is not given
or parses to a positive duration: the other flags cannot empty the listen address or
the command. -/
theorem overlay_valid_of_positive (parseDuration : String → Except String Int)
    (cfg cfg' : Config) (f : Flags) (hv : Validate cfg = none)
    (ht : f.timeout = "" ∨ ∃ dur, parseDuration f.timeout = .ok dur ∧ 0 < dur)
    (h : overlay parseDuration cfg f = .ok cfg') : Validate cfg' = none := by
  have hl : cfg.Listen ≠ "" := by
    intro hl; simp [Validate, hl] at hv
  have hc : cfg.Command ≠ "" := by
    intro hc; simp [Validate, hl, hc] at hv
  have hd : 0 < cfg.Timeout := by
    by_contra hd
    simp [Validate, hl, hc, not_lt.mp hd] at hv
  have hl' : cfg'.Listen ≠ "" ∧ cfg'.Command ≠ "" ∧ 0 < cfg'.Timeout := by
    unfold overlay at h
    rcases ht with ht | ⟨dur, hp, hpos⟩
    · simp only [ht, ne_eq, not_true_eq_false, if_false, Except.ok.injEq] at h
      rw [← h]
      by_cases h1 : f.listen = "" <;> by_cases h2 : f.command = "" <;>
        by_cases h3 : f.token = "" <;> by_cases h4 : f.logLevel = "" <;>
        simp [h1, h2, h3, h4, hl, hc, hd]
    · by_cases h0 : f.timeout = ""
      · simp only [h0, ne_eq, not_true_eq_false, if_false, Except.ok.injEq] at h
        rw [← h]
        by_cases h1 : f.listen = "" <;> by_cases h2 : f.command = "" <;>
          by_cases h3 : f.token = "" <;> by_cases h4 : f.logLevel = "" <;>
          simp [h1, h2, h3, h4, hl, hc, hd]
      · simp only [h0, ne_eq, not_false_eq_true, if_true, hp, Except.ok.injEq] at h
        rw [← h]
        by_cases h1 : f.listen = "" <;> by_cases h2 : f.command = "" <;>
          by_cases h3 : f.token = "" <;> by_cases h4 : f.logLevel = "" <;>
          simp [h1, h2, h3, h4, hl, hc, hpos]
  obtain ⟨a, b, c⟩ := hl'
  simp [Validate, a, b, not_le.mpr c]

/-- The overlay stores whatever duration the timeout flag parses to, without validating
it: a flag that parses to zero or a negative duration turns every valid configuration
into one that `Validate` rejects. -/
theorem overlay_invalid_of_nonpositive (parseDuration : String → Except String Int)
    (cfg : Config) (f : Flags) (dur : Int) (hv : Validate cfg = none)
    (hf : f.timeout ≠ "") (hp : parseDuration f.timeout = .ok dur) (hd : dur ≤ 0) :
    ∃ cfg', overlay parseDuration cfg f = .ok cfg' ∧ cfg'.Timeout = dur ∧
      Validate cfg' = some "timeout must be greater than zero" := by
  have hl : cfg.Listen ≠ "" := by
    intro hl; simp [Validate, hl] at hv
  have hc : cfg.Command ≠ "" := by
    intro hc; simp [Validate, hl, hc] at hv
  unfold overlay
  simp only [hf, ne_eq, not_false_eq_true, if_true, hp]
  refine ⟨_, rfl, ?_, ?_⟩
  · by_cases h4 : f.logLevel = "" <;> simp [h4]
  · by_cases h1 : f.listen = "" <;> by_cases h2 : f.command = "" <;>
      by_cases h3 : f.token = "" <;> by_cases h4 : f.logLevel = "" <;>
      simp [Validate, h1, h2, h3, h4, hl, hc, hd]

/-- C10, at the failing input: the default configuration, which `Load` accepts, with
the flag `-timeout 0s` (and likewise `-timeout -1s`).  `main` hands `server.Run` a
configuration with timeout 0 (respectively -1s), which `Validate` rejects with
`timeout must be greater than zero`, and the handler passes that timeout to
`executor.Run`. -/
theorem overlay_timeout_flag_unvalidated :
    Load sampleParseDuration (.ok defaultConfig) = .ok defaultConfig ∧
    mainConfig sampleParseDuration (.ok defaultConfig) { noFlags with timeout := "0s" } =
      .ok { defaultConfig with Timeout := 0, TimeoutRaw := "0s" } ∧
    Validate { defaultConfig with Timeout := 0, TimeoutRaw := "0s" } =
      some "timeout must be greater than zero" ∧
    mainConfig sampleParseDuration (.ok defaultConfig) { noFlags with timeout := "-1s" } =
      .ok { defaultConfig with Timeout := -1000000000, TimeoutRaw := "-1s" } ∧
    Validate { defaultConfig with Timeout := -1000000000, TimeoutRaw := "-1s" } =
      some "timeout must be greater than zero" ∧
    (executeStage { defaultConfig with Timeout := 0, TimeoutRaw := "0s" } sampleDeps
        "/usr/local/bin/send-evolution" []).events.head? =
      some (.run "/usr/local/bin/send-evolution" [] 0) := by
  refine ⟨?_, ?_, ?_, ?_, ?_, ?_⟩ <;> rfl

end AlertExec
